import Mathlib

/-!
Shallow embedding of `nps_parks_collector.py`, a four-stage pipeline
(authenticate, fetch, parse, write) that copies National Park Service
records into a spreadsheet.

Modelling choices:
* Python dicts become association lists (`List (String × Value)`); `dict.get`
  with a default becomes `List.lookup` with `Option.getD`.
* JSON scalar values become the inductive `Value` (strings, integers, null,
  plus `nan` for the cell pandas puts where a column is missing).
* The API response body is modelled as the JSON fragment the program
  inspects: an object mapping keys to arrays of record dicts, or `none`
  for an absent body.  Python truthiness of the body (`not api_response`)
  is `respTruthy`.
* Effects of the third-party clients (Colab auth, `requests.get`,
  `gspread`) are supplied as outcome values in an environment record;
  an uncaught Python exception is modelled by the `raised` field of
  `MainResult`, console output by an explicit list of printed lines, and
  calls against the spreadsheet backend by a `SheetCall` trace.
-/

namespace NPS

/-- A JSON scalar value as it appears in a record field.  `nan` is the cell
pandas substitutes when a row is missing a column. -/
inductive Value where
  | str (s : String)
  | num (n : Int)
  | null
  | nan
deriving DecidableEq, Repr

/-- A Python dict (one park record), as an association list. -/
abbrev Dict := List (String × Value)

/-- Python `park.get(key, dflt)`. -/
def dictGet (park : Dict) (key : String) (dflt : Value) : Value :=
  (park.lookup key).getD dflt

/-- The five column names, in the fixed order the parser emits them. -/
def fieldNames : List String :=
  ["fullName", "states", "description", "acres", "designation"]

/-- The loop body of `parse_parks_data`: project one source record onto the
five named fields, substituting "N/A" for any absent field. -/
def parseRecord (park : Dict) : Dict :=
  [("fullName", dictGet park "fullName" (Value.str "N/A")),
   ("states", dictGet park "states" (Value.str "N/A")),
   ("description", dictGet park "description" (Value.str "N/A")),
   ("acres", dictGet park "acres" (Value.str "N/A")),
   ("designation", dictGet park "designation" (Value.str "N/A"))]

/-- The decoded JSON body, restricted to the fragment the program reads: a
top-level object whose values are arrays of record dicts. -/
abbrev ApiResponse := List (String × List Dict)

/-- Python truthiness of the fetched body: `None` and the empty object are
falsy, any non-empty object is truthy. -/
def respTruthy : Option ApiResponse → Bool
  | none => false
  | some fields => !fields.isEmpty

/-- The parser `parse_parks_data`: returns the parsed list (or `None`) and
the lines it prints. -/
def parse_parks_data (api_response : Option ApiResponse) :
    Option (List Dict) × List String :=
  let hdr := "📊 Parsing park data..."
  let noData := "❌ No data found in API response"
  match api_response with
  | none => (none, [hdr, noData])
  | some resp =>
    if resp.isEmpty then (none, [hdr, noData])
    else
      match resp.lookup "data" with
      | none => (none, [hdr, noData])
      | some parks_data =>
        let parks_list := parks_data.map parseRecord
        (some parks_list,
         [hdr, "✅ Parsed " ++ toString parks_list.length ++ " parks successfully!"])

/-- The pandas DataFrame as the program uses it: an ordered list of column
names and the row-major cell grid. -/
structure DataFrame where
  columns : List String
  rows : List (List Value)
deriving DecidableEq, Repr

/-- Append a key to the column list unless it is already present.  Part of
the modelled `pd.DataFrame(list_of_dicts)` construction. -/
def insertKey (acc : List String) (k : String) : List String :=
  if acc.contains k then acc else acc ++ [k]

/-- Columns of `pd.DataFrame(records)`: the record keys in first-seen order. -/
def dfColumns (records : List Dict) : List String :=
  records.foldl (fun acc r => r.foldl (fun a kv => insertKey a kv.1) acc) []

/-- One DataFrame row: the record's value in each column, NaN if absent. -/
def dfRow (cols : List String) (r : Dict) : List Value :=
  cols.map (fun c => (r.lookup c).getD Value.nan)

/-- The `create_dataframe` stage: `None` for an empty (falsy) list, otherwise
the DataFrame, together with the lines it prints. -/
def create_dataframe (parks_list : List Dict) : Option DataFrame × List String :=
  let hdr := "📋 Creating DataFrame..."
  if parks_list.isEmpty then
    (none, [hdr, "❌ No parks data to create DataFrame"])
  else
    let cols := dfColumns parks_list
    let df : DataFrame := ⟨cols, parks_list.map (dfRow cols)⟩
    (some df,
     [hdr, "✅ DataFrame created with " ++ toString df.rows.length ++ " rows and "
        ++ toString cols.length ++ " columns"])

/-- The 2D grid handed to the worksheet bulk update:
`[df.columns.values.tolist()] + df.values.tolist()`. -/
def sheetGrid (df : DataFrame) : List (List Value) :=
  (df.columns.map Value.str) :: df.rows

/-- Outcomes of the four gspread operations the writer performs, supplied by
the environment; `Except.error e` models the operation raising exception
text `e`. -/
structure SheetEnv where
  openResult : Except String Unit
  worksheetResult : Except String Unit
  clearResult : Except String Unit
  updateResult : Except String Unit

/-- One call issued against the spreadsheet backend. -/
inductive SheetCall where
  | openByUrl (url : String)
  | getWorksheet (index : Nat)
  | clear
  | update (grid : List (List Value))
deriving DecidableEq, Repr

/-- The durable state of the destination worksheet after the run. -/
inductive SheetState where
  | untouched
  | clearedEmpty
  | written (grid : List (List Value))
deriving DecidableEq, Repr

/-- What `write_to_google_sheet` produces: its boolean return value, its
printed lines, the backend calls it issued (in order), and the worksheet's
final state. -/
structure WriteResult where
  success : Bool
  console : List String
  calls : List SheetCall
  finalSheet : SheetState
deriving DecidableEq, Repr

/-- The error line the writer's `except` clause prints. -/
def writeErr (e : String) : String := "❌ Error writing to Google Sheet: " ++ e

/-- The writer `write_to_google_sheet`: open by URL, take worksheet 0, clear,
bulk-update with the grid; any exception is caught and surfaced as `False`,
with no rollback. -/
def write_to_google_sheet (senv : SheetEnv) (sheet_url : String) (df : DataFrame) :
    WriteResult :=
  let hdr := "📝 Writing data to Google Sheet..."
  let grid := sheetGrid df
  match senv.openResult with
  | .error e => ⟨false, [hdr, writeErr e], [.openByUrl sheet_url], .untouched⟩
  | .ok _ =>
    match senv.worksheetResult with
    | .error e =>
      ⟨false, [hdr, writeErr e], [.openByUrl sheet_url, .getWorksheet 0], .untouched⟩
    | .ok _ =>
      match senv.clearResult with
      | .error e =>
        ⟨false, [hdr, writeErr e],
         [.openByUrl sheet_url, .getWorksheet 0, .clear], .untouched⟩
      | .ok _ =>
        match senv.updateResult with
        | .error e =>
          ⟨false, [hdr, writeErr e],
           [.openByUrl sheet_url, .getWorksheet 0, .clear, .update grid],
           .clearedEmpty⟩
        | .ok _ =>
          ⟨true,
           [hdr, "✅ Successfully wrote " ++ toString df.rows.length
              ++ " parks to Google Sheet!",
            "🔗 View your data: " ++ sheet_url],
           [.openByUrl sheet_url, .getWorksheet 0, .clear, .update grid],
           .written grid⟩

/-- Outcome of the single `requests.get` the fetcher performs.  The three
error constructors are all `requests.exceptions.RequestException`s: a non-2xx
status (raised by `raise_for_status`), a network error, and a body that fails
JSON decoding. -/
inductive FetchOutcome where
  | ok (body : Option ApiResponse)
  | httpError (msg : String)
  | networkError (msg : String)
  | malformedBody (msg : String)

/-- The fetcher `fetch_parks_data`: one GET, no retry; on any
RequestException it prints the error and returns `None`. -/
def fetch_parks_data (api_key : String) (limit : Nat) (outcome : FetchOutcome) :
    Option ApiResponse × List String :=
  let hdr := "📡 Fetching up to " ++ toString limit ++ " parks from NPS API..."
  let fetchErr := fun (e : String) => "❌ Error fetching data from NPS API: " ++ e
  match api_key, outcome with
  | _, .ok body => (body, [hdr, "✅ API request successful!"])
  | _, .httpError e => (none, [hdr, fetchErr e])
  | _, .networkError e => (none, [hdr, fetchErr e])
  | _, .malformedBody e => (none, [hdr, fetchErr e])

/-- The authenticator `authenticate_google`: no try/except, so a failing
`auth.authenticate_user()` propagates (`Except.error`); success yields the
gspread client handle. -/
def authenticate_google (outcome : Except String Unit) :
    Except String Unit × List String :=
  match outcome with
  | .error e => (.error e, ["🔐 Authenticating with Google..."])
  | .ok _ =>
    (.ok (), ["🔐 Authenticating with Google...", "✅ Google authentication successful!"])

/-- The run environment: the two configuration strings and the outcomes the
external services would produce if called. -/
structure Env where
  api_key : String
  sheet_url : String
  authOutcome : Except String Unit
  fetchOutcome : FetchOutcome
  sheetEnv : SheetEnv

/-- Observable result of one run of `main`: the exception propagating out of
`main` (if any), everything printed, the number of HTTP GETs issued, the
spreadsheet backend calls issued, and the worksheet's final state. -/
structure MainResult where
  raised : Option String
  console : List String
  httpRequests : Nat
  sheetCalls : List SheetCall
  finalSheet : SheetState

/-- Sixty equals signs, Python's `"=" * 60`. -/
def sep : String := String.mk (List.replicate 60 '=')

/-- The opening banner `main` prints. -/
def banner : List String := [sep, "National Parks Data Collector", sep]

/-- The orchestrator `main`: placeholder checks, then authenticate, fetch,
parse, build the DataFrame, and write, each guarded by the falsiness check
the source performs on the previous stage's result. -/
def main (env : Env) : MainResult :=
  if env.api_key = "YOUR_API_KEY_HERE" then
    ⟨none, banner ++ ["❌ ERROR: Please paste your NPS API key in the API_KEY variable"],
     0, [], .untouched⟩
  else if env.sheet_url = "YOUR_GOOGLE_SHEET_URL_HERE" then
    ⟨none, banner ++ ["❌ ERROR: Please paste your Google Sheet URL in the SHEET_URL variable"],
     0, [], .untouched⟩
  else
    match authenticate_google env.authOutcome with
    | (Except.error e, authCon) => ⟨some e, banner ++ authCon, 0, [], .untouched⟩
    | (Except.ok _, authCon) =>
      match fetch_parks_data env.api_key 50 env.fetchOutcome with
      | (api_response, fetchCon) =>
        let con1 := banner ++ authCon ++ fetchCon
        if respTruthy api_response = false then
          ⟨none, con1, 1, [], .untouched⟩
        else
          match parse_parks_data api_response with
          | (none, parseCon) => ⟨none, con1 ++ parseCon, 1, [], .untouched⟩
          | (some parks_list, parseCon) =>
            if parks_list.isEmpty then
              ⟨none, con1 ++ parseCon, 1, [], .untouched⟩
            else
              match create_dataframe parks_list with
              | (none, dfCon) => ⟨none, con1 ++ parseCon ++ dfCon, 1, [], .untouched⟩
              | (some df, dfCon) =>
                let wr := write_to_google_sheet env.sheetEnv env.sheet_url df
                let finalCon :=
                  if wr.success then
                    ["\n" ++ sep,
                     "✅ ALL DONE! Your National Parks data is now in Google Sheets!", sep]
                  else
                    ["\n" ++ sep,
                     "❌ Process completed with errors. Please check the messages above.", sep]
                ⟨none, con1 ++ parseCon ++ dfCon ++ wr.console ++ finalCon,
                 1, wr.calls, wr.finalSheet⟩

/-- The Yellowstone record from the spec's scenario. -/
def yellowstonePark : Dict :=
  [("fullName", Value.str "Yellowstone"), ("states", Value.str "ID,MT,WY"),
   ("description", Value.str "..."), ("acres", Value.num 2219791),
   ("designation", Value.str "National Park")]

/-- The single-record Yellowstone response body. -/
def yellowstoneResp : ApiResponse := [("data", [yellowstonePark])]

/-- A response whose `data` key holds an empty list. -/
def emptyDataResp : ApiResponse := [("data", [])]

/-- A sheet environment in which every gspread call succeeds. -/
def sheetEnvOk : SheetEnv := ⟨.ok (), .ok (), .ok (), .ok ()⟩

end NPS
namespace NPS

/-- Concrete environments and data used by witnesses and counterexamples. -/
def envOk : Env :=
  ⟨"key123", "https://sheet.example", Except.ok (),
   FetchOutcome.ok (some yellowstoneResp), sheetEnvOk⟩

/-- A run in which `auth.authenticate_user()` raises. -/
def envAuthFail : Env :=
  ⟨"key123", "https://sheet.example", Except.error "RefreshError",
   FetchOutcome.ok none, sheetEnvOk⟩

/-- A run whose response body lacks the data key. -/
def envNoData : Env :=
  ⟨"key123", "https://sheet.example", Except.ok (),
   FetchOutcome.ok (some [("meta", [])]), sheetEnvOk⟩

/-- A run whose single GET fails with a non-2xx status. -/
def envFetchFail : Env :=
  ⟨"key123", "https://sheet.example", Except.ok (),
   FetchOutcome.httpError "403 Client Error", sheetEnvOk⟩

/-- A run with the API key left at its placeholder. -/
def envKeyPlaceholder : Env :=
  ⟨"YOUR_API_KEY_HERE", "https://sheet.example", Except.ok (),
   FetchOutcome.ok none, sheetEnvOk⟩

/-- A run with the sheet URL left at its placeholder. -/
def envUrlPlaceholder : Env :=
  ⟨"key123", "YOUR_GOOGLE_SHEET_URL_HERE", Except.ok (),
   FetchOutcome.ok none, sheetEnvOk⟩

/-- A run whose response has a data key holding an empty list. -/
def envEmptyData : Env :=
  ⟨"key123", "https://sheet.example", Except.ok (),
   FetchOutcome.ok (some emptyDataResp), sheetEnvOk⟩

/-- A sheet environment where the bulk update raises after a clean clear. -/
def sheetEnvUpdateFails : SheetEnv :=
  ⟨.ok (), .ok (), .ok (), .error "APIError 429"⟩

/-- The one-row DataFrame of the Yellowstone scenario. -/
def dfYellowstone : DataFrame :=
  ⟨fieldNames,
   [[Value.str "Yellowstone", Value.str "ID,MT,WY", Value.str "...",
     Value.num 2219791, Value.str "National Park"]]⟩

lemma dfColumns_parsed_aux (ps : List Dict) :
    (ps.map parseRecord).foldl
      (fun acc r => r.foldl (fun a kv => insertKey a kv.1) acc) fieldNames = fieldNames := by
  induction ps with
  | nil => rfl
  | cons p ps ih =>
    rw [List.map_cons, List.foldl_cons]
    exact ih

lemma dfColumns_parsed (p : Dict) (ps : List Dict) :
    dfColumns ((p :: ps).map parseRecord) = fieldNames := by
  rw [dfColumns, List.map_cons, List.foldl_cons]
  exact dfColumns_parsed_aux ps

lemma rows_parsed (ps : List Dict) :
    (ps.map parseRecord).map (dfRow fieldNames) = ps.map (fun park =>
      [dictGet park "fullName" (Value.str "N/A"),
       dictGet park "states" (Value.str "N/A"),
       dictGet park "description" (Value.str "N/A"),
       dictGet park "acres" (Value.str "N/A"),
       dictGet park "designation" (Value.str "N/A")]) := by
  rw [List.map_map]
  rfl

lemma main_raised_eq (env : Env) :
    (main env).raised =
      if env.api_key = "YOUR_API_KEY_HERE" then none
      else if env.sheet_url = "YOUR_GOOGLE_SHEET_URL_HERE" then none
      else
        match env.authOutcome with
        | Except.error e => some e
        | Except.ok _ => none := by
  by_cases hk : env.api_key = "YOUR_API_KEY_HERE"
  · simp [main, hk]
  by_cases hu : env.sheet_url = "YOUR_GOOGLE_SHEET_URL_HERE"
  · simp [main, hk, hu]
  rcases hauth : env.authOutcome with e | u
  · simp [main, hk, hu, hauth, authenticate_google]
  · cases u
    simp only [main, hk, hu, hauth, authenticate_google, if_neg]
    rcases hfp : fetch_parks_data env.api_key 50 env.fetchOutcome with ⟨api_response, fetchCon⟩
    by_cases ht : respTruthy api_response = false
    · simp [ht]
    · simp only [ht]
      rcases hpp : parse_parks_data api_response with ⟨ol, pc⟩
      cases ol with
      | none => simp
      | some l =>
        by_cases hl : l.isEmpty
        · simp [hl]
        · simp only [hl]
          rcases hcd : create_dataframe l with ⟨od, dc⟩
          cases od with
          | none => simp
          | some df => simp

/-- C1: for every response whose data key holds a list of records,
`parse_parks_data` returns exactly that many ParkRecords, in source order,
each populated with the five fields from the source record or the
placeholder; the single-record Yellowstone response yields exactly its one
normalized record. -/
theorem C1_parse_yields_all_records_in_order
    (resp : ApiResponse) (parks : List Dict)
    (hne : resp ≠ []) (hdata : resp.lookup "data" = some parks) :
    (parse_parks_data (some resp)).1 = some (parks.map parseRecord) ∧
    (parks.map parseRecord).length = parks.length ∧
    (∀ i : Nat, (parks.map parseRecord)[i]? = (parks[i]?).map (fun park =>
      [("fullName", dictGet park "fullName" (Value.str "N/A")),
       ("states", dictGet park "states" (Value.str "N/A")),
       ("description", dictGet park "description" (Value.str "N/A")),
       ("acres", dictGet park "acres" (Value.str "N/A")),
       ("designation", dictGet park "designation" (Value.str "N/A"))])) ∧
    (parse_parks_data (some yellowstoneResp)).1 =
      some [[("fullName", Value.str "Yellowstone"), ("states", Value.str "ID,MT,WY"),
             ("description", Value.str "..."), ("acres", Value.num 2219791),
             ("designation", Value.str "National Park")]] := by
  have hres : resp.isEmpty = false := by
    cases resp with
    | nil => exact absurd rfl hne
    | cons a l => rfl
  refine ⟨by simp [parse_parks_data, hres, hdata], by simp, fun i => ?_, by decide⟩
  rw [List.getElem?_map]
  rfl

/-- C1 witness: the Yellowstone response parses to its single record. -/
theorem C1_witness :
    (parse_parks_data (some yellowstoneResp)).1 = some ([yellowstonePark].map parseRecord) :=
  (C1_parse_yields_all_records_in_order yellowstoneResp [yellowstonePark]
    (by decide) (by decide)).1

/-- C2: for each of the five fields, a record missing that field normalizes
to the placeholder "N/A" and a record carrying it passes the value through
unchanged; the record with only fullName "Test Park" normalizes to
["Test Park","N/A","N/A","N/A","N/A"]. -/
theorem C2_missing_fields_become_placeholder
    (park : Dict) (f : String) (hf : f ∈ fieldNames) :
    (park.lookup f = none → (parseRecord park).lookup f = some (Value.str "N/A")) ∧
    (∀ v, park.lookup f = some v → (parseRecord park).lookup f = some v) ∧
    parseRecord [("fullName", Value.str "Test Park")] =
      [("fullName", Value.str "Test Park"), ("states", Value.str "N/A"),
       ("description", Value.str "N/A"), ("acres", Value.str "N/A"),
       ("designation", Value.str "N/A")] := by
  fin_cases hf <;>
    refine ⟨fun h => ?_, fun v h => ?_, by decide⟩ <;>
    simp [parseRecord, dictGet, h, List.lookup]

/-- C2 witness: acres is one of the five fields, and the Test Park record,
which lacks it, normalizes it to the placeholder. -/
theorem C2_witness :
    (parseRecord ([("fullName", Value.str "Test Park")] : Dict)).lookup "acres" =
      some (Value.str "N/A") :=
  (C2_missing_fields_become_placeholder [("fullName", Value.str "Test Park")]
    "acres" (by decide)).1 (by decide)

/-- C3: for every non-empty record list, the grid handed to the worksheet
bulk update is the five-name header row followed by exactly one row per
ParkRecord, in record order, with columns in header order. -/
theorem C3_sink_grid_is_header_then_rows (ps : List Dict) (hne : ps ≠ []) :
    ∃ df : DataFrame,
      (create_dataframe (ps.map parseRecord)).1 = some df ∧
      df.columns = fieldNames ∧
      sheetGrid df =
        [Value.str "fullName", Value.str "states", Value.str "description",
         Value.str "acres", Value.str "designation"] ::
          ps.map (fun park =>
            [dictGet park "fullName" (Value.str "N/A"),
             dictGet park "states" (Value.str "N/A"),
             dictGet park "description" (Value.str "N/A"),
             dictGet park "acres" (Value.str "N/A"),
             dictGet park "designation" (Value.str "N/A")]) := by
  obtain ⟨p, ps', rfl⟩ := List.exists_cons_of_ne_nil hne
  have hcols := dfColumns_parsed p ps'
  refine ⟨⟨dfColumns ((p :: ps').map parseRecord),
           ((p :: ps').map parseRecord).map (dfRow (dfColumns ((p :: ps').map parseRecord)))⟩,
          rfl, hcols, ?_⟩
  rw [sheetGrid]
  rw [hcols]
  rw [rows_parsed]
  rfl

/-- C3 witness: the Yellowstone record yields the header row plus its one
data row. -/
theorem C3_witness :
    ∃ df : DataFrame,
      (create_dataframe ([yellowstonePark].map parseRecord)).1 = some df ∧
      df.columns = fieldNames ∧
      sheetGrid df =
        [Value.str "fullName", Value.str "states", Value.str "description",
         Value.str "acres", Value.str "designation"] ::
          [yellowstonePark].map (fun park =>
            [dictGet park "fullName" (Value.str "N/A"),
             dictGet park "states" (Value.str "N/A"),
             dictGet park "description" (Value.str "N/A"),
             dictGet park "acres" (Value.str "N/A"),
             dictGet park "designation" (Value.str "N/A")]) :=
  C3_sink_grid_is_header_then_rows [yellowstonePark] (by decide)

/-- C4: for a response that is absent, an empty object, or an object without
the data key, the parser returns None and prints the no-data report, and a
run receiving such a body issues no spreadsheet call and leaves the sheet
untouched. -/
theorem C4_missing_data_halts_before_sink (r : Option ApiResponse) (env : Env)
    (hr : r = none ∨ r = some [] ∨ ∃ d, r = some d ∧ d.lookup "data" = none)
    (hk : env.api_key ≠ "YOUR_API_KEY_HERE")
    (hu : env.sheet_url ≠ "YOUR_GOOGLE_SHEET_URL_HERE")
    (ha : env.authOutcome = Except.ok ())
    (hf : env.fetchOutcome = FetchOutcome.ok r) :
    (parse_parks_data r).1 = none ∧
    "❌ No data found in API response" ∈ (parse_parks_data r).2 ∧
    (main env).sheetCalls = [] ∧
    (main env).finalSheet = SheetState.untouched := by
  rcases hr with rfl | rfl | ⟨d, rfl, hd⟩
  · exact ⟨rfl, by simp [parse_parks_data],
      by simp [main, hk, hu, ha, hf, authenticate_google, fetch_parks_data, respTruthy],
      by simp [main, hk, hu, ha, hf, authenticate_google, fetch_parks_data, respTruthy]⟩
  · exact ⟨rfl, by simp [parse_parks_data],
      by simp [main, hk, hu, ha, hf, authenticate_google, fetch_parks_data, respTruthy],
      by simp [main, hk, hu, ha, hf, authenticate_google, fetch_parks_data, respTruthy]⟩
  · cases d with
    | nil =>
      exact ⟨rfl, by simp [parse_parks_data],
        by simp [main, hk, hu, ha, hf, authenticate_google, fetch_parks_data, respTruthy],
        by simp [main, hk, hu, ha, hf, authenticate_google, fetch_parks_data, respTruthy]⟩
    | cons a d' =>
      refine ⟨by simp [parse_parks_data, hd], by simp [parse_parks_data, hd], ?_, ?_⟩ <;>
        simp [main, hk, hu, ha, hf, authenticate_google, fetch_parks_data, respTruthy,
              parse_parks_data, hd]

/-- C4 witness: a body whose only key is meta halts the run before any
spreadsheet call. -/
theorem C4_witness :
    (parse_parks_data (some [("meta", [])])).1 = none ∧
    "❌ No data found in API response" ∈ (parse_parks_data (some [("meta", [])])).2 ∧
    (main envNoData).sheetCalls = [] ∧
    (main envNoData).finalSheet = SheetState.untouched :=
  C4_missing_data_halts_before_sink (some [("meta", [])]) envNoData
    (Or.inr (Or.inr ⟨[("meta", [])], rfl, by decide⟩)) (by decide) (by decide) rfl rfl

/-- C5 counterexample: with a failing authenticator, the exception escapes
`main` instead of being caught, so the run does not return normally. -/
theorem C5_counterexample_auth_exception_escapes :
    (main envAuthFail).raised = some "RefreshError" ∧
    (main envAuthFail).raised ≠ none := by
  constructor <;> decide

/-- C5 amended: for unconfigured placeholders and for every failure arising
at or after the fetch stage, `main` returns normally with no exception; an
authentication failure, however, propagates uncaught out of `main`. -/
theorem C5_amended_all_failures_handled_except_auth (env : Env) :
    ((env.api_key = "YOUR_API_KEY_HERE" ∨ env.sheet_url = "YOUR_GOOGLE_SHEET_URL_HERE" ∨
        env.authOutcome = Except.ok ()) → (main env).raised = none) ∧
    (∀ e : String, env.api_key ≠ "YOUR_API_KEY_HERE" →
      env.sheet_url ≠ "YOUR_GOOGLE_SHEET_URL_HERE" →
      env.authOutcome = Except.error e → (main env).raised = some e) := by
  constructor
  · intro h
    rw [main_raised_eq]
    rcases h with hk | hu | ha
    · simp [hk]
    · simp [hu]
    · simp [ha]
  · intro e hk hu ha
    rw [main_raised_eq]
    simp [hk, hu, ha]

/-- C5 witness: a fully configured run returns normally, and the concrete
auth-failure run propagates its exception. -/
theorem C5_witness :
    (main envOk).raised = none ∧ (main envAuthFail).raised = some "RefreshError" :=
  ⟨(C5_amended_all_failures_handled_except_auth envOk).1 (Or.inr (Or.inr rfl)),
   (C5_amended_all_failures_handled_except_auth envAuthFail).2 "RefreshError"
     (by decide) (by decide) rfl⟩

/-- C6: a placeholder API key or sheet URL makes `main` print the guidance
message and return before authenticating, before any HTTP request, and
before any spreadsheet call. -/
theorem C6_placeholder_guard_stops_run (env : Env) :
    (env.api_key = "YOUR_API_KEY_HERE" →
      (main env).console =
        banner ++ ["❌ ERROR: Please paste your NPS API key in the API_KEY variable"] ∧
      "🔐 Authenticating with Google..." ∉ (main env).console ∧
      (main env).httpRequests = 0 ∧ (main env).sheetCalls = [] ∧
      (main env).raised = none) ∧
    (env.api_key ≠ "YOUR_API_KEY_HERE" → env.sheet_url = "YOUR_GOOGLE_SHEET_URL_HERE" →
      (main env).console =
        banner ++ ["❌ ERROR: Please paste your Google Sheet URL in the SHEET_URL variable"] ∧
      "🔐 Authenticating with Google..." ∉ (main env).console ∧
      (main env).httpRequests = 0 ∧ (main env).sheetCalls = [] ∧
      (main env).raised = none) := by
  constructor
  · intro hk
    have hm : main env = ⟨none,
        banner ++ ["❌ ERROR: Please paste your NPS API key in the API_KEY variable"],
        0, [], .untouched⟩ := by
      simp [main, hk]
    rw [hm]
    exact ⟨rfl, by decide, rfl, rfl, rfl⟩
  · intro hk hu
    have hm : main env = ⟨none,
        banner ++ ["❌ ERROR: Please paste your Google Sheet URL in the SHEET_URL variable"],
        0, [], .untouched⟩ := by
      simp [main, hk, hu]
    rw [hm]
    exact ⟨rfl, by decide, rfl, rfl, rfl⟩

/-- C6 witness: the two placeholder runs make no HTTP request and no
spreadsheet call. -/
theorem C6_witness :
    (main envKeyPlaceholder).httpRequests = 0 ∧
    (main envKeyPlaceholder).sheetCalls = [] ∧
    (main envUrlPlaceholder).httpRequests = 0 :=
  ⟨((C6_placeholder_guard_stops_run envKeyPlaceholder).1 rfl).2.2.1,
   ((C6_placeholder_guard_stops_run envKeyPlaceholder).1 rfl).2.2.2.1,
   ((C6_placeholder_guard_stops_run envUrlPlaceholder).2 (by decide) rfl).2.2.1⟩

/-- C7: every fetch failure (non-2xx status, network error, malformed body)
makes the fetcher print the error and return None after its single request,
and the run then issues no spreadsheet call. -/
theorem C7_fetch_failure_reports_and_skips_sink (env : Env) (e : String)
    (hk : env.api_key ≠ "YOUR_API_KEY_HERE")
    (hu : env.sheet_url ≠ "YOUR_GOOGLE_SHEET_URL_HERE")
    (ha : env.authOutcome = Except.ok ())
    (hf : env.fetchOutcome = FetchOutcome.httpError e ∨
          env.fetchOutcome = FetchOutcome.networkError e ∨
          env.fetchOutcome = FetchOutcome.malformedBody e) :
    (fetch_parks_data env.api_key 50 env.fetchOutcome).1 = none ∧
    ("❌ Error fetching data from NPS API: " ++ e) ∈
      (fetch_parks_data env.api_key 50 env.fetchOutcome).2 ∧
    (main env).httpRequests = 1 ∧
    (main env).sheetCalls = [] ∧
    (main env).finalSheet = SheetState.untouched := by
  rcases hf with hf | hf | hf <;>
    refine ⟨?_, ?_, ?_, ?_, ?_⟩ <;>
    simp [main, fetch_parks_data, hk, hu, ha, hf, authenticate_google, respTruthy]

/-- C7 witness: the concrete 403 run returns no body and issues no
spreadsheet call. -/
theorem C7_witness :
    (fetch_parks_data "key123" 50 (FetchOutcome.httpError "403 Client Error")).1 = none ∧
    (main envFetchFail).sheetCalls = [] :=
  ⟨(C7_fetch_failure_reports_and_skips_sink envFetchFail "403 Client Error"
      (by decide) (by decide) rfl (Or.inl rfl)).1,
   (C7_fetch_failure_reports_and_skips_sink envFetchFail "403 Client Error"
      (by decide) (by decide) rfl (Or.inl rfl)).2.2.2.1⟩

/-- C8: any exception during open, worksheet selection, clear, or update is
caught and surfaced as the boolean False with the error printed; an update
failure after a successful clear leaves the sheet cleared and
unrepopulated. -/
theorem C8_write_failure_surfaced_as_false (senv : SheetEnv) (url : String) (df : DataFrame)
    (h : (∃ e, senv.openResult = Except.error e) ∨
         (∃ e, senv.worksheetResult = Except.error e) ∨
         (∃ e, senv.clearResult = Except.error e) ∨
         (∃ e, senv.updateResult = Except.error e)) :
    ((write_to_google_sheet senv url df).success = false ∧
     ∃ e, writeErr e ∈ (write_to_google_sheet senv url df).console) ∧
    (senv.openResult = Except.ok () → senv.worksheetResult = Except.ok () →
     senv.clearResult = Except.ok () → ∀ e, senv.updateResult = Except.error e →
       (write_to_google_sheet senv url df).finalSheet = SheetState.clearedEmpty) := by
  obtain ⟨o, w, c, u⟩ := senv
  constructor
  · cases o with
    | error e => exact ⟨rfl, e, by simp [write_to_google_sheet, writeErr]⟩
    | ok uo =>
      cases uo
      cases w with
      | error e => exact ⟨rfl, e, by simp [write_to_google_sheet, writeErr]⟩
      | ok uw =>
        cases uw
        cases c with
        | error e => exact ⟨rfl, e, by simp [write_to_google_sheet, writeErr]⟩
        | ok uc =>
          cases uc
          cases u with
          | error e => exact ⟨rfl, e, by simp [write_to_google_sheet, writeErr]⟩
          | ok uu =>
            cases uu
            rcases h with ⟨e, he⟩ | ⟨e, he⟩ | ⟨e, he⟩ | ⟨e, he⟩ <;> cases he
  · intro ho hw hc e hu
    simp only at ho hw hc hu
    subst ho; subst hw; subst hc; subst hu
    rfl

/-- C8 witness: the concrete failing update returns False and leaves the
sheet cleared but empty. -/
theorem C8_witness :
    (write_to_google_sheet sheetEnvUpdateFails "https://sheet.example" dfYellowstone).success
        = false ∧
    (write_to_google_sheet sheetEnvUpdateFails "https://sheet.example" dfYellowstone).finalSheet
        = SheetState.clearedEmpty :=
  ⟨(C8_write_failure_surfaced_as_false sheetEnvUpdateFails "https://sheet.example" dfYellowstone
      (Or.inr (Or.inr (Or.inr ⟨"APIError 429", rfl⟩)))).1.1,
   (C8_write_failure_surfaced_as_false sheetEnvUpdateFails "https://sheet.example" dfYellowstone
      (Or.inr (Or.inr (Or.inr ⟨"APIError 429", rfl⟩)))).2 rfl rfl rfl "APIError 429" rfl⟩

/-- C9: a response whose data key holds an empty list parses successfully to
the empty record list, yet `main` treats it as a failure: the run halts
before the DataFrame and sink stages and never touches the spreadsheet. -/
theorem C9_empty_data_halts_despite_parse_success (env : Env)
    (hk : env.api_key ≠ "YOUR_API_KEY_HERE")
    (hu : env.sheet_url ≠ "YOUR_GOOGLE_SHEET_URL_HERE")
    (ha : env.authOutcome = Except.ok ())
    (hf : env.fetchOutcome = FetchOutcome.ok (some emptyDataResp)) :
    (parse_parks_data (some emptyDataResp)).1 = some [] ∧
    "✅ Parsed 0 parks successfully!" ∈ (parse_parks_data (some emptyDataResp)).2 ∧
    (main env).sheetCalls = [] ∧
    (main env).finalSheet = SheetState.untouched ∧
    "📋 Creating DataFrame..." ∉ (main env).console ∧
    "📝 Writing data to Google Sheet..." ∉ (main env).console := by
  have hm : main env = ⟨none,
      banner ++ ["🔐 Authenticating with Google...", "✅ Google authentication successful!"]
        ++ ["📡 Fetching up to 50 parks from NPS API...", "✅ API request successful!"]
        ++ ["📊 Parsing park data...", "✅ Parsed 0 parks successfully!"],
      1, [], .untouched⟩ := by
    simp [main, hk, hu, ha, hf, authenticate_google, fetch_parks_data, respTruthy,
          parse_parks_data, emptyDataResp]
    exact ⟨by decide, by decide⟩
  rw [hm]
  exact ⟨by decide, by decide, rfl, rfl, by decide, by decide⟩

/-- C9 witness: the concrete empty-data run halts with no spreadsheet call. -/
theorem C9_witness :
    (parse_parks_data (some emptyDataResp)).1 = some [] ∧
    (main envEmptyData).sheetCalls = [] :=
  ⟨(C9_empty_data_halts_despite_parse_success envEmptyData
      (by decide) (by decide) rfl rfl).1,
   (C9_empty_data_halts_despite_parse_success envEmptyData
      (by decide) (by decide) rfl rfl).2.2.1⟩

/-- C10: whatever extra fields a source record carries, its ParkRecord has
exactly the five keys fullName, states, description, acres, designation in
that fixed order and no others. -/
theorem C10_parsed_record_has_exactly_five_keys (park : Dict) :
    (parseRecord park).map Prod.fst =
      ["fullName", "states", "description", "acres", "designation"] := rfl

end NPS
